import Mathlib

/-!
Verification development for the smooth-trackball-scrolling daemon.

The engine in scroll_logic.py is embedded as pure functions over real
numbers (Python floats idealized as reals, math.sqrt as Real.sqrt, and
the built-in round as round-half-to-even).  The event routing loop of
daemon.py is embedded as a step function from daemon state and a
timestamped input event to a new state plus the list of events written
to the virtual uinput device.
-/

namespace SmoothScroll

/-! evdev constants used by daemon.py -/

def EV_SYN : ℕ := 0

def EV_KEY : ℕ := 1

def EV_REL : ℕ := 2

def REL_X : ℕ := 0

def REL_Y : ℕ := 1

def REL_HWHEEL : ℕ := 6

def REL_WHEEL : ℕ := 8

def BTN_LEFT : ℕ := 272

def BTN_RIGHT : ℕ := 273

def BTN_MIDDLE : ℕ := 274

/-- Python's built-in round: nearest integer, ties to even. -/
noncomputable def roundHalfEven (x : ℝ) : ℤ :=
  if x - ⌊x⌋ < 1/2 then ⌊x⌋
  else if 1/2 < x - ⌊x⌋ then ⌊x⌋ + 1
  else if ⌊x⌋ % 2 = 0 then ⌊x⌋ else ⌊x⌋ + 1

/-- Python's int() applied to a float: truncation toward zero. -/
noncomputable def truncTowardZero (x : ℝ) : ℤ :=
  if 0 ≤ x then ⌊x⌋ else ⌈x⌉

/-- collections.deque(maxlen := m).append: append on the right, dropping
from the left whatever exceeds the capacity. -/
def dequePush (m : ℕ) (l : List ℝ) (v : ℝ) : List ℝ :=
  (l ++ [v]).drop ((l ++ [v]).length - m)

/-- SmoothingWindow of scroll_logic.py. -/
structure SmoothingWindow where
  max_size : ℕ
  window_x : List ℝ
  window_y : List ℝ

def SmoothingWindow.push (w : SmoothingWindow) (x y : ℝ) : SmoothingWindow :=
  { w with window_x := dequePush w.max_size w.window_x x,
           window_y := dequePush w.max_size w.window_y y }

noncomputable def SmoothingWindow.mean_x (w : SmoothingWindow) : ℝ :=
  if w.window_x = [] then 0 else w.window_x.sum / w.window_x.length

noncomputable def SmoothingWindow.mean_y (w : SmoothingWindow) : ℝ :=
  if w.window_y = [] then 0 else w.window_y.sum / w.window_y.length

def SmoothingWindow.reset (w : SmoothingWindow) : SmoothingWindow :=
  { w with window_x := [], window_y := [] }

/-- ScrollState of scroll_logic.py. -/
structure ScrollState where
  active : Bool
  accumulator_x : ℝ
  accumulator_y : ℝ
  accumulator_wheel : ℝ
  remainder_x : ℝ
  remainder_y : ℝ
  cursor_x : ℤ
  cursor_y : ℤ
  window_under_mouse : String
  control_under_mouse : String
  snap_state : ℕ
  snap_deviation : ℝ

/-- SmoothScrollLogic of scroll_logic.py: the configuration parameters
read in __init__ together with the mutable state. -/
structure SmoothScrollLogic where
  sensitivity : ℝ
  refresh_interval : ℝ
  smoothing : SmoothingWindow
  snap_on : Bool
  snap_ratio : ℝ
  snap_threshold : ℝ
  acceleration_on : Bool
  accel_p : ℝ
  accel_q : ℝ
  accel_r : ℝ
  add_shift : Bool
  add_ctrl : Bool
  add_alt : Bool
  state : ScrollState

def SmoothScrollLogic.is_active (L : SmoothScrollLogic) : Bool :=
  L.state.active

noncomputable def SmoothScrollLogic.activate (L : SmoothScrollLogic)
    (cursor_x cursor_y : ℤ) : SmoothScrollLogic :=
  { L with
    state := { L.state with
      active := true, accumulator_x := 0, accumulator_y := 0,
      accumulator_wheel := 0, remainder_x := 0, remainder_y := 0,
      cursor_x := cursor_x, cursor_y := cursor_y,
      snap_state := 0, snap_deviation := 0 },
    smoothing := L.smoothing.reset }

def SmoothScrollLogic.deactivate (L : SmoothScrollLogic) : SmoothScrollLogic :=
  { L with state := { L.state with active := false } }

noncomputable def SmoothScrollLogic.add_mouse_movement (L : SmoothScrollLogic)
    (delta_x delta_y : ℝ) : SmoothScrollLogic :=
  if L.state.active then
    { L with state := { L.state with
        accumulator_x := L.state.accumulator_x + delta_x,
        accumulator_y := L.state.accumulator_y + delta_y } }
  else L

noncomputable def SmoothScrollLogic.add_wheel_input (L : SmoothScrollLogic)
    (delta : ℝ) : SmoothScrollLogic :=
  if L.state.active then
    { L with state := { L.state with
        accumulator_wheel := L.state.accumulator_wheel + delta } }
  else L

/-- The snap-deviation attenuation step of _apply_axis_snapping: after the
deviation was increased, pull it back toward zero by the amount a, clamped
so that its sign cannot flip within this step. -/
noncomputable def snapAttenuate (d a : ℝ) : ℝ :=
  if 0 < d then max 0 (d - a)
  else if d < 0 then min 0 (d + a)
  else d

/-- _apply_axis_snapping of scroll_logic.py: returns the logic with its
snap state updated together with the snapped (x, y) pair. -/
noncomputable def SmoothScrollLogic.apply_axis_snapping (L : SmoothScrollLogic)
    (x y : ℝ) : SmoothScrollLogic × ℝ × ℝ :=
  if L.state.snap_state = 0 then
    if |x| > |y| then
      ({ L with state := { L.state with snap_state := 1 } }, x, 0)
    else if |x| < |y| then
      ({ L with state := { L.state with snap_state := 2 } }, 0, y)
    else
      (L, x, y)
  else if L.state.snap_state = 1 then
    if |snapAttenuate (L.state.snap_deviation + y) (|x| * L.snap_ratio)| > L.snap_threshold then
      ({ L with state := { L.state with snap_state := 2, snap_deviation := 0 },
                smoothing := L.smoothing.reset }, 0, y)
    else
      ({ L with state := { L.state with
          snap_deviation := snapAttenuate (L.state.snap_deviation + y) (|x| * L.snap_ratio) } },
       x, 0)
  else if L.state.snap_state = 2 then
    if |snapAttenuate (L.state.snap_deviation + x) (|y| * L.snap_ratio)| > L.snap_threshold then
      ({ L with state := { L.state with snap_state := 1, snap_deviation := 0 },
                smoothing := L.smoothing.reset }, x, 0)
    else
      ({ L with state := { L.state with
          snap_deviation := snapAttenuate (L.state.snap_deviation + x) (|y| * L.snap_ratio) } },
       0, y)
  else (L, x, y)

/-- _apply_acceleration of scroll_logic.py. -/
noncomputable def SmoothScrollLogic.apply_acceleration (L : SmoothScrollLogic)
    (x y : ℝ) : ℝ × ℝ :=
  let speed := Real.sqrt (x * x + y * y)
  if speed = 0 then (x, y)
  else
    let speed_offset := speed - L.accel_r
    let sf0 := L.accel_q * speed_offset + L.accel_r
    let sf1 := if speed_offset < 0 then sf0 + L.accel_p * speed_offset * speed_offset else sf0
    (x * (sf1 / speed), y * (sf1 / speed))

/-- Lines 142-161 of scroll_logic.py: push the accumulators into the
smoothing window, take the (Y-inverted) means, reset the accumulators,
apply axis snapping, acceleration and the sensitivity multiplier.
Returns the updated logic and the shaped, sensitivity-scaled pair. -/
noncomputable def SmoothScrollLogic.process_scroll_shaped (L : SmoothScrollLogic) :
    SmoothScrollLogic × ℝ × ℝ :=
  let sm := L.smoothing.push L.state.accumulator_x L.state.accumulator_y
  let smoothed_x := sm.mean_x
  let smoothed_y := -sm.mean_y
  let L1 : SmoothScrollLogic :=
    { L with smoothing := sm,
             state := { L.state with accumulator_x := 0, accumulator_y := 0 } }
  let snapped := if L1.snap_on then L1.apply_axis_snapping smoothed_x smoothed_y
                 else (L1, smoothed_x, smoothed_y)
  let L2 := snapped.1
  let ax := snapped.2.1
  let ay := snapped.2.2
  let accel := if L2.acceleration_on ∧ (ax ≠ 0 ∨ ay ≠ 0) then L2.apply_acceleration ax ay
               else (ax, ay)
  (L2, accel.1 * L2.sensitivity, accel.2 * L2.sensitivity)

/-- process_scroll of scroll_logic.py: the shaped pair plus the carried
remainders is rounded; the rounding error is stored back as the new
remainders and the integer pair is returned. -/
noncomputable def SmoothScrollLogic.process_scroll (L : SmoothScrollLogic) :
    SmoothScrollLogic × ℤ × ℤ :=
  let shaped := L.process_scroll_shaped
  let L2 := shaped.1
  let smoothed_x := shaped.2.1 + L2.state.remainder_x
  let smoothed_y := shaped.2.2 + L2.state.remainder_y
  let rounded_x := roundHalfEven smoothed_x
  let rounded_y := roundHalfEven smoothed_y
  ({ L2 with state := { L2.state with
      remainder_x := smoothed_x - rounded_x,
      remainder_y := smoothed_y - rounded_y } },
   rounded_x, rounded_y)

/-- get_wheel_delta of scroll_logic.py: return the wheel accumulator and
reset it. -/
noncomputable def SmoothScrollLogic.get_wheel_delta (L : SmoothScrollLogic) :
    ℝ × SmoothScrollLogic :=
  (L.state.accumulator_wheel,
   { L with state := { L.state with accumulator_wheel := 0 } })

/-! Sequences of engine operations, for stating tick invariants. -/

inductive EngineOp where
  | add : ℝ → ℝ → EngineOp
  | tick : EngineOp

noncomputable def SmoothScrollLogic.applyOp (L : SmoothScrollLogic) :
    EngineOp → SmoothScrollLogic
  | EngineOp.add dx dy => L.add_mouse_movement dx dy
  | EngineOp.tick => L.process_scroll.1

noncomputable def SmoothScrollLogic.runOps (L : SmoothScrollLogic)
    (ops : List EngineOp) : SmoothScrollLogic :=
  ops.foldl SmoothScrollLogic.applyOp L

/-! The daemon's event router (daemon.py). -/

/-- One event read from or written to an evdev device. -/
structure InputEvent where
  etype : ℕ
  code : ℕ
  value : ℤ
deriving DecidableEq

def SYN_REPORT : InputEvent := ⟨EV_SYN, 0, 0⟩

/-- Router state owned by SmoothScrollDaemon. -/
structure DaemonState where
  is_holding : Bool
  button_press_time : ℝ
  logic : SmoothScrollLogic

/-- One iteration of SmoothScrollDaemon._mouse_reader_loop: given the
hotkey button code hk, the hold duration hd (seconds), the current
daemon state, the current clock value and the event just read, return
the next state and the list of events written to the virtual device
(replay_event writes the event followed by a SYN_REPORT; the tap
fall-through writes a press, SYN, release, SYN sequence). -/
noncomputable def mouseReaderStep (hk : ℕ) (hd : ℝ) (S : DaemonState)
    (now : ℝ) (e : InputEvent) : DaemonState × List InputEvent :=
  if e.etype = EV_KEY ∧ e.code = hk then
    if e.value = 1 then
      ({ S with button_press_time := now, is_holding := true }, [])
    else if e.value = 0 then
      if S.logic.is_active then
        ({ S with is_holding := false, logic := S.logic.deactivate }, [])
      else if now - S.button_press_time < hd then
        ({ S with is_holding := false },
         [⟨EV_KEY, hk, 1⟩, SYN_REPORT, ⟨EV_KEY, hk, 0⟩, SYN_REPORT])
      else ({ S with is_holding := false }, [])
    else (S, [])
  else
    let S1 := if e.etype = EV_REL ∧ S.is_holding ∧ ¬S.logic.is_active then
                { S with logic := S.logic.activate 0 0 }
              else S
    if e.etype = EV_REL ∧ S1.logic.is_active then
      let logic2 := if e.code = REL_X then S1.logic.add_mouse_movement e.value 0
                    else if e.code = REL_Y then S1.logic.add_mouse_movement 0 e.value
                    else S1.logic
      ({ S1 with logic := logic2 }, [])
    else
      let S2 := if S1.is_holding ∧ ¬S1.logic.is_active ∧ hd < now - S1.button_press_time then
                  { S1 with logic := S1.logic.activate 0 0 }
                else S1
      (S2, [e, SYN_REPORT])

/-- Run the mouse reader over a list of timestamped events, concatenating
the events written to the virtual device. -/
noncomputable def runMouseReader (hk : ℕ) (hd : ℝ) :
    DaemonState → List (ℝ × InputEvent) → DaemonState × List InputEvent
  | S, [] => (S, [])
  | S, te :: rest =>
      let step := mouseReaderStep hk hd S te.1 te.2
      let next := runMouseReader hk hd step.1 rest
      (next.1, step.2 ++ next.2)

/-- send_scroll of daemon.py: horizontal wheel first if nonzero, then
vertical if nonzero, then a SYN_REPORT. -/
def sendScrollEvents (scroll_x scroll_y : ℤ) : List InputEvent :=
  (if scroll_x ≠ 0 then [⟨EV_REL, REL_HWHEEL, scroll_x⟩] else []) ++
  (if scroll_y ≠ 0 then [⟨EV_REL, REL_WHEEL, scroll_y⟩] else []) ++
  [SYN_REPORT]

/-- One iteration of SmoothScrollDaemon._process_scroll_thread: when the
engine is active, run process_scroll, emit the nonzero result, then
drain the wheel accumulator and emit its truncation when nonzero. -/
noncomputable def processScrollThreadStep (L : SmoothScrollLogic) :
    SmoothScrollLogic × List InputEvent :=
  if L.is_active then
    let r := L.process_scroll
    let out1 := if r.2.1 ≠ 0 ∨ r.2.2 ≠ 0 then sendScrollEvents r.2.1 r.2.2 else []
    let wd := r.1.get_wheel_delta
    let out2 := if wd.1 ≠ 0 then sendScrollEvents 0 (truncTowardZero wd.1) else []
    (wd.2, out1 ++ out2)
  else (L, [])

/-! Concrete fixtures used by witnesses and counterexamples.  The
configuration mirrors the end-to-end scenario configuration of the
repository (sensitivity 1, refresh 10 ms, window 1, snap off, accel
off, MButton hotkey, hold 200 ms). -/

noncomputable def testConfigLogic : SmoothScrollLogic :=
  { sensitivity := 1,
    refresh_interval := 10 / 1000,
    smoothing := ⟨1, [], []⟩,
    snap_on := false,
    snap_ratio := 1/2,
    snap_threshold := 10,
    acceleration_on := false,
    accel_p := 1 / (1 * (10 / 1000)),
    accel_q := 1 + 1,
    accel_r := 1 * (10 / 1000),
    add_shift := false,
    add_ctrl := false,
    add_alt := false,
    state :=
      { active := false, accumulator_x := 0, accumulator_y := 0,
        accumulator_wheel := 0, remainder_x := 0, remainder_y := 0,
        cursor_x := 0, cursor_y := 0,
        window_under_mouse := "", control_under_mouse := "",
        snap_state := 0, snap_deviation := 0 } }

noncomputable def activeTestLogic : SmoothScrollLogic :=
  testConfigLogic.activate 0 0

noncomputable def wheelTestLogic : SmoothScrollLogic :=
  { testConfigLogic with
    state := { testConfigLogic.state with accumulator_wheel := 3/2 } }

noncomputable def snapXTestLogic : SmoothScrollLogic :=
  { testConfigLogic with
    snap_on := true,
    state := { testConfigLogic.state with active := true, snap_state := 1 } }

noncomputable def accelTestLogic : SmoothScrollLogic :=
  { testConfigLogic with acceleration_on := true }

noncomputable def idleDaemon : DaemonState :=
  ⟨false, 0, testConfigLogic⟩

noncomputable def activeDaemon : DaemonState :=
  ⟨false, 0, activeTestLogic⟩

def wheelInputEvent : InputEvent := ⟨EV_REL, REL_WHEEL, 1⟩

def sideButtonEvent : InputEvent := ⟨EV_KEY, 275, 1⟩

/-- Press, physical-wheel, release trace used against the tap-latch claim. -/
noncomputable def tapWheelTrace : List (ℝ × InputEvent) :=
  [(0, ⟨EV_KEY, BTN_MIDDLE, 1⟩), (1/20, ⟨EV_REL, REL_WHEEL, 1⟩),
   (1/10, ⟨EV_KEY, BTN_MIDDLE, 0⟩)]

/-! Basic facts about the rounding function. -/

theorem abs_sub_roundHalfEven (x : ℝ) : |x - (roundHalfEven x : ℝ)| ≤ 1/2 := by
  have h0 : (⌊x⌋ : ℝ) ≤ x := Int.floor_le x
  have h1 : x < ⌊x⌋ + 1 := Int.lt_floor_add_one x
  unfold roundHalfEven
  split_ifs with hlt hgt hev
  · rw [abs_le]
    constructor <;> linarith
  · rw [abs_le]
    push_cast
    constructor <;> linarith
  · rw [abs_le]
    have h2 := le_of_not_lt hlt
    have h3 := le_of_not_lt hgt
    constructor <;> linarith
  · rw [abs_le]
    have h2 := le_of_not_lt hlt
    have h3 := le_of_not_lt hgt
    push_cast
    constructor <;> linarith

theorem roundHalfEven_intCast (n : ℤ) : roundHalfEven (n : ℝ) = n := by
  unfold roundHalfEven
  rw [Int.floor_intCast]
  norm_num

/-! Unfolded forms of the engine operations, as rewriting lemmas. -/

theorem process_scroll_remainder_x (L : SmoothScrollLogic) :
    L.process_scroll.1.state.remainder_x =
      L.process_scroll_shaped.2.1 + L.process_scroll_shaped.1.state.remainder_x -
        (roundHalfEven (L.process_scroll_shaped.2.1 +
          L.process_scroll_shaped.1.state.remainder_x) : ℝ) := by
  rfl

theorem process_scroll_remainder_y (L : SmoothScrollLogic) :
    L.process_scroll.1.state.remainder_y =
      L.process_scroll_shaped.2.2 + L.process_scroll_shaped.1.state.remainder_y -
        (roundHalfEven (L.process_scroll_shaped.2.2 +
          L.process_scroll_shaped.1.state.remainder_y) : ℝ) := by
  rfl

theorem process_scroll_fst_eq (L : SmoothScrollLogic) :
    L.process_scroll.2.1 =
      roundHalfEven (L.process_scroll_shaped.2.1 +
        L.process_scroll_shaped.1.state.remainder_x) := by
  rfl

theorem process_scroll_snd_eq (L : SmoothScrollLogic) :
    L.process_scroll.2.2 =
      roundHalfEven (L.process_scroll_shaped.2.2 +
        L.process_scroll_shaped.1.state.remainder_y) := by
  rfl

/-- Axis snapping never touches the rounding remainders. -/
theorem apply_axis_snapping_remainders (L : SmoothScrollLogic) (x y : ℝ) :
    (L.apply_axis_snapping x y).1.state.remainder_x = L.state.remainder_x ∧
    (L.apply_axis_snapping x y).1.state.remainder_y = L.state.remainder_y := by
  unfold SmoothScrollLogic.apply_axis_snapping
  split_ifs <;> exact ⟨rfl, rfl⟩

/-- The shaping phase never touches the rounding remainders. -/
theorem process_scroll_shaped_remainders (L : SmoothScrollLogic) :
    L.process_scroll_shaped.1.state.remainder_x = L.state.remainder_x ∧
    L.process_scroll_shaped.1.state.remainder_y = L.state.remainder_y := by
  unfold SmoothScrollLogic.process_scroll_shaped
  by_cases h : L.snap_on
  · simp only [h, if_true]
    exact apply_axis_snapping_remainders _ _ _
  · simp only [h, if_false]
    exact ⟨rfl, rfl⟩

/-- A single tick leaves remainders of absolute value at most 1/2. -/
theorem tick_remainder_bound (L : SmoothScrollLogic) :
    |L.process_scroll.1.state.remainder_x| ≤ 1/2 ∧
    |L.process_scroll.1.state.remainder_y| ≤ 1/2 := by
  constructor
  · rw [process_scroll_remainder_x]
    exact abs_sub_roundHalfEven _
  · rw [process_scroll_remainder_y]
    exact abs_sub_roundHalfEven _

/-- C4: for every engine state and every sequence of add_motion calls
interleaved with ticks, each tick leaves the stored remainders with
absolute value strictly below 1. -/
theorem C4_remainder_invariant (L : SmoothScrollLogic) (ops : List EngineOp) :
    |(L.runOps (ops ++ [EngineOp.tick])).state.remainder_x| < 1 ∧
    |(L.runOps (ops ++ [EngineOp.tick])).state.remainder_y| < 1 := by
  unfold SmoothScrollLogic.runOps
  rw [List.foldl_append]
  have h := tick_remainder_bound (List.foldl SmoothScrollLogic.applyOp L ops)
  constructor
  · exact lt_of_le_of_lt h.1 (by norm_num)
  · exact lt_of_le_of_lt h.2 (by norm_num)

/-- C5: the remainder update is an exact round trip per axis: the new
remainder plus the returned integer equals the shaped, sensitivity-scaled
value of this tick plus the remainder carried in. -/
theorem C5_remainder_roundtrip (L : SmoothScrollLogic) :
    L.process_scroll.1.state.remainder_x + (L.process_scroll.2.1 : ℝ) =
      L.process_scroll_shaped.2.1 + L.state.remainder_x ∧
    L.process_scroll.1.state.remainder_y + (L.process_scroll.2.2 : ℝ) =
      L.process_scroll_shaped.2.2 + L.state.remainder_y := by
  have hrem := process_scroll_shaped_remainders L
  constructor
  · rw [process_scroll_remainder_x, process_scroll_fst_eq, hrem.1]
    ring
  · rw [process_scroll_remainder_y, process_scroll_snd_eq, hrem.2]
    ring

/-- Pushing into a deque of capacity one keeps exactly the new element. -/
theorem dequePush_one (l : List ℝ) (v : ℝ) : dequePush 1 l v = [v] := by
  unfold dequePush
  have h : (l ++ [v]).length - 1 = l.length := by simp
  rw [h]
  exact List.drop_left l [v]

/-- C7: in the UNDECIDED snap state, a strictly dominant axis locks onto
that axis and zeroes the other component, while an exact tie leaves the
state untouched and passes both components through. -/
theorem C7_snap_undecided (L : SmoothScrollLogic) (x y : ℝ)
    (h : L.state.snap_state = 0) :
    (|x| > |y| → (L.apply_axis_snapping x y).1.state.snap_state = 1 ∧
       (L.apply_axis_snapping x y).2 = (x, 0)) ∧
    (|x| < |y| → (L.apply_axis_snapping x y).1.state.snap_state = 2 ∧
       (L.apply_axis_snapping x y).2 = (0, y)) ∧
    (|x| = |y| → (x, y) ≠ ((0 : ℝ), (0 : ℝ)) →
       (L.apply_axis_snapping x y).1 = L ∧ (L.apply_axis_snapping x y).2 = (x, y)) := by
  refine ⟨?_, ?_, ?_⟩
  · intro h1
    constructor <;> simp [SmoothScrollLogic.apply_axis_snapping, h, h1]
  · intro h1
    constructor <;>
      simp [SmoothScrollLogic.apply_axis_snapping, h, h1, h1.asymm]
  · intro h1 _
    constructor <;> simp [SmoothScrollLogic.apply_axis_snapping, h, h1]

/-- C7 witness: from an undecided state, the input (3, 2) locks the X
axis and suppresses the y component. -/
theorem C7_snap_undecided_witness :
    (activeTestLogic.apply_axis_snapping 3 2).1.state.snap_state = 1 ∧
    (activeTestLogic.apply_axis_snapping 3 2).2 = (3, 0) := by
  have h := (C7_snap_undecided activeTestLogic 3 2 rfl).1 (by norm_num)
  exact h

/-- C6: once an axis is locked, each snapping step either keeps the lock,
emitting a pair whose other component is exactly zero and storing the
attenuated deviation, or, exactly when the attenuated deviation exceeds
the threshold, flips to the other lock, resets the deviation, clears the
smoothing window and emits the other component. -/
theorem C6_snap_locked (L : SmoothScrollLogic) (x y : ℝ) :
    (L.state.snap_state = 1 →
      (|snapAttenuate (L.state.snap_deviation + y) (|x| * L.snap_ratio)| > L.snap_threshold →
        (L.apply_axis_snapping x y).1.state.snap_state = 2 ∧
        (L.apply_axis_snapping x y).1.state.snap_deviation = 0 ∧
        (L.apply_axis_snapping x y).1.smoothing.window_x = [] ∧
        (L.apply_axis_snapping x y).1.smoothing.window_y = [] ∧
        (L.apply_axis_snapping x y).2 = (0, y)) ∧
      (¬ |snapAttenuate (L.state.snap_deviation + y) (|x| * L.snap_ratio)| > L.snap_threshold →
        (L.apply_axis_snapping x y).1.state.snap_state = 1 ∧
        (L.apply_axis_snapping x y).1.state.snap_deviation =
          snapAttenuate (L.state.snap_deviation + y) (|x| * L.snap_ratio) ∧
        (L.apply_axis_snapping x y).2 = (x, 0))) ∧
    (L.state.snap_state = 2 →
      (|snapAttenuate (L.state.snap_deviation + x) (|y| * L.snap_ratio)| > L.snap_threshold →
        (L.apply_axis_snapping x y).1.state.snap_state = 1 ∧
        (L.apply_axis_snapping x y).1.state.snap_deviation = 0 ∧
        (L.apply_axis_snapping x y).1.smoothing.window_x = [] ∧
        (L.apply_axis_snapping x y).1.smoothing.window_y = [] ∧
        (L.apply_axis_snapping x y).2 = (x, 0)) ∧
      (¬ |snapAttenuate (L.state.snap_deviation + x) (|y| * L.snap_ratio)| > L.snap_threshold →
        (L.apply_axis_snapping x y).1.state.snap_state = 2 ∧
        (L.apply_axis_snapping x y).1.state.snap_deviation =
          snapAttenuate (L.state.snap_deviation + x) (|y| * L.snap_ratio) ∧
        (L.apply_axis_snapping x y).2 = (0, y))) := by
  constructor
  · intro h1
    constructor
    · intro hflip
      refine ⟨?_, ?_, ?_, ?_, ?_⟩ <;>
        simp [SmoothScrollLogic.apply_axis_snapping, SmoothingWindow.reset, h1, hflip]
    · intro hstay
      refine ⟨?_, ?_, ?_⟩ <;>
        simp [SmoothScrollLogic.apply_axis_snapping, h1, hstay]
  · intro h2
    constructor
    · intro hflip
      refine ⟨?_, ?_, ?_, ?_, ?_⟩ <;>
        simp [SmoothScrollLogic.apply_axis_snapping, SmoothingWindow.reset, h2, hflip]
    · intro hstay
      refine ⟨?_, ?_, ?_⟩ <;>
        simp [SmoothScrollLogic.apply_axis_snapping, h2, hstay]

/-- C6 witness: in the X-locked test state with input (5, 1) the
deviation 1 is attenuated to 0, which stays below the threshold 10, so
the output keeps the X lock with zero y component. -/
theorem C6_snap_locked_witness :
    (snapXTestLogic.apply_axis_snapping 5 1).1.state.snap_state = 1 ∧
    (snapXTestLogic.apply_axis_snapping 5 1).2 = (5, 0) := by
  have hstay : ¬ |snapAttenuate (snapXTestLogic.state.snap_deviation + 1)
      (|(5:ℝ)| * snapXTestLogic.snap_ratio)| > snapXTestLogic.snap_threshold := by
    have hdev : snapXTestLogic.state.snap_deviation = 0 := rfl
    have hrat : snapXTestLogic.snap_ratio = 1/2 := rfl
    have hth : snapXTestLogic.snap_threshold = 10 := rfl
    rw [hdev, hrat, hth]
    rw [show snapAttenuate (0 + 1) (|(5:ℝ)| * (1/2)) = 0 by
      unfold snapAttenuate
      rw [if_pos (by norm_num)]
      rw [show |(5:ℝ)| = 5 by norm_num]
      rw [max_eq_left (by norm_num)]]
    norm_num
  have h := ((C6_snap_locked snapXTestLogic 5 1).1 rfl).2 hstay
  exact ⟨h.1, h.2.2⟩

/-- C10: the smoothing-window means are total, returning zero on an empty
window instead of dividing by zero, and the window that process_scroll
reads its means from has just been pushed to, hence is nonempty whenever
the configured capacity is at least one. -/
theorem C10_mean_total :
    (∀ w : SmoothingWindow, w.window_x = [] → w.mean_x = 0) ∧
    (∀ w : SmoothingWindow, w.window_y = [] → w.mean_y = 0) ∧
    (∀ L : SmoothScrollLogic, 1 ≤ L.smoothing.max_size →
      (L.smoothing.push L.state.accumulator_x L.state.accumulator_y).window_x ≠ [] ∧
      (L.smoothing.push L.state.accumulator_x L.state.accumulator_y).window_y ≠ []) := by
  refine ⟨?_, ?_, ?_⟩
  · intro w hw
    simp [SmoothingWindow.mean_x, hw]
  · intro w hw
    simp [SmoothingWindow.mean_y, hw]
  · intro L hL
    constructor <;>
    · simp only [SmoothingWindow.push, dequePush]
      intro hc
      rw [List.drop_eq_nil_iff] at hc
      simp only [List.length_append, List.length_cons, List.length_nil] at hc
      omega

/-- C10 witness: the mean of an empty window is zero, and pushing into
the capacity-one test window leaves it nonempty. -/
theorem C10_mean_total_witness :
    (SmoothingWindow.mk 3 [] []).mean_x = 0 ∧
    (testConfigLogic.smoothing.push testConfigLogic.state.accumulator_x
      testConfigLogic.state.accumulator_y).window_x ≠ [] := by
  refine ⟨C10_mean_total.1 _ rfl, (C10_mean_total.2.2 testConfigLogic ?_).1⟩
  exact le_refl 1

/-- C1 counterexample: with 3/2 accumulated, get_wheel_delta returns the
full value 3/2 and leaves 0 behind, not the truncation 1 with fractional
part 1/2 retained as the claim states. -/
theorem C1_drain_wheel_counterexample :
    wheelTestLogic.get_wheel_delta.1 = 3/2 ∧
    wheelTestLogic.get_wheel_delta.2.state.accumulator_wheel = 0 ∧
    ¬(wheelTestLogic.get_wheel_delta.1 =
        ((truncTowardZero wheelTestLogic.state.accumulator_wheel : ℤ) : ℝ) ∧
      wheelTestLogic.get_wheel_delta.2.state.accumulator_wheel =
        wheelTestLogic.state.accumulator_wheel -
          ((truncTowardZero wheelTestLogic.state.accumulator_wheel : ℤ) : ℝ)) := by
  have hacc : wheelTestLogic.state.accumulator_wheel = 3/2 := rfl
  have hfloor : ⌊(3/2 : ℝ)⌋ = 1 := by
    rw [Int.floor_eq_iff]
    norm_num
  have htrunc : truncTowardZero wheelTestLogic.state.accumulator_wheel = 1 := by
    rw [hacc]
    unfold truncTowardZero
    rw [if_pos (by norm_num)]
    exact hfloor
  refine ⟨rfl, rfl, ?_⟩
  rintro ⟨h1, -⟩
  rw [htrunc] at h1
  have h2 : (3/2 : ℝ) = ((1 : ℤ) : ℝ) := h1
  norm_num at h2

/-- C1 amended: get_wheel_delta returns the entire accumulated wheel
value, fractional part included, and resets the accumulator to zero. -/
theorem C1_drain_wheel_amended (L : SmoothScrollLogic) :
    L.get_wheel_delta.1 = L.state.accumulator_wheel ∧
    L.get_wheel_delta.2 =
      { L with state := { L.state with accumulator_wheel := 0 } } ∧
    L.get_wheel_delta.2.state.accumulator_wheel = 0 :=
  ⟨rfl, rfl, rfl⟩

/-- C3: with window capacity one, snapping and acceleration off,
sensitivity one, zero remainders and the engine active, a single
add_mouse_movement of (0, d) pending since the last tick makes the next
tick return (0, -d): the Y axis is inverted. -/
theorem C3_motion_to_tick (L : SmoothScrollLogic) (d : ℤ)
    (hmax : L.smoothing.max_size = 1)
    (hsnap : L.snap_on = false)
    (haccel : L.acceleration_on = false)
    (hsens : L.sensitivity = 1)
    (hrx : L.state.remainder_x = 0) (hry : L.state.remainder_y = 0)
    (hact : L.state.active = true)
    (hax : L.state.accumulator_x = 0) (hay : L.state.accumulator_y = 0) :
    ((L.add_mouse_movement 0 d).process_scroll).2 = (0, -d) := by
  have hadd : L.add_mouse_movement 0 d =
      { L with state := { L.state with
          accumulator_x := 0, accumulator_y := (d : ℝ) } } := by
    simp [SmoothScrollLogic.add_mouse_movement, hact, hax, hay]
  have h1 : dequePush L.smoothing.max_size L.smoothing.window_x (0 : ℝ) = [0] := by
    rw [hmax]
    exact dequePush_one _ _
  have h2 : dequePush L.smoothing.max_size L.smoothing.window_y ((d : ℝ)) = [(d : ℝ)] := by
    rw [hmax]
    exact dequePush_one _ _
  have h0 : roundHalfEven (0 : ℝ) = 0 := by
    simpa using roundHalfEven_intCast 0
  have hneg : roundHalfEven (-(d : ℝ)) = -d := by
    rw [show (-(d : ℝ)) = ((-d : ℤ) : ℝ) by push_cast; ring]
    exact roundHalfEven_intCast _
  rw [hadd]
  simp [SmoothScrollLogic.process_scroll, SmoothScrollLogic.process_scroll_shaped,
        SmoothingWindow.push, SmoothingWindow.mean_x, SmoothingWindow.mean_y,
        h1, h2, hsnap, haccel, hsens, hrx, hry, h0, hneg]

/-- C3 witness: injecting REL_Y 3 into the freshly activated test engine
makes the next tick emit horizontal 0 and vertical -3. -/
theorem C3_motion_to_tick_witness :
    ((activeTestLogic.add_mouse_movement 0 3).process_scroll).2 = (0, -3) := by
  have h := C3_motion_to_tick activeTestLogic 3 rfl rfl rfl rfl rfl rfl rfl rfl rfl
  simpa using h

/-- C9: with acceleration parameters p = blend/(scale times 0.01 s),
q = blend + 1, r = scale times 0.01 s for blend = scale = 1 and a 10 ms
refresh, the accelerated and sensitivity-scaled x output on input (1, 0)
strictly exceeds one sensitivity unit (for positive sensitivity). -/
theorem C9_accel_boost (L : SmoothScrollLogic)
    (hon : L.acceleration_on = true)
    (hp : L.accel_p = 1 / (1 * (10 / 1000)))
    (hq : L.accel_q = 1 + 1)
    (hr : L.accel_r = 1 * (10 / 1000))
    (hs : 0 < L.sensitivity) :
    1 * L.sensitivity < |(L.apply_acceleration 1 0).1 * L.sensitivity| := by
  have hsp : Real.sqrt ((1 : ℝ) * 1 + 0 * 0) = 1 := by
    norm_num
  have hval : (L.apply_acceleration 1 0).1 = 199/100 := by
    simp only [SmoothScrollLogic.apply_acceleration, hsp, hq, hr]
    rw [if_neg (by norm_num : ¬(1 : ℝ) = 0)]
    rw [if_neg (by norm_num : ¬(1 : ℝ) - 1 * (10 / 1000) < 0)]
    norm_num
  rw [hval]
  rw [abs_of_pos (by positivity)]
  linarith

/-- C9 witness: for the acceleration-enabled test configuration with
sensitivity one, the boosted x output on (1, 0) exceeds one. -/
theorem C9_accel_boost_witness :
    1 * accelTestLogic.sensitivity <
      |(accelTestLogic.apply_acceleration 1 0).1 * accelTestLogic.sensitivity| :=
  C9_accel_boost accelTestLogic rfl rfl rfl rfl (by norm_num [accelTestLogic, testConfigLogic])

/-! Router lemmas. -/

/-- C2 counterexample: a physical wheel event (EV_REL, REL_WHEEL), which
is neither the hotkey button event nor REL_X/REL_Y motion, is swallowed
rather than replayed while the engine is active. -/
theorem C2_replay_counterexample :
    activeDaemon.logic.is_active = true ∧
    wheelInputEvent.etype = EV_REL ∧
    wheelInputEvent.code ≠ REL_X ∧
    wheelInputEvent.code ≠ REL_Y ∧
    ¬(wheelInputEvent.etype = EV_KEY ∧ wheelInputEvent.code = BTN_MIDDLE) ∧
    (mouseReaderStep BTN_MIDDLE (1/5) activeDaemon 1 wheelInputEvent).2 = [] := by
  have hact : activeDaemon.logic.is_active = true := rfl
  have hhold : activeDaemon.is_holding = false := rfl
  refine ⟨rfl, rfl, by decide, by decide, by decide, ?_⟩
  simp [mouseReaderStep, hact, hhold, wheelInputEvent, EV_REL, EV_KEY, REL_X, REL_Y,
        REL_WHEEL, BTN_MIDDLE]

/-- C2 amended: every event that is neither the hotkey button event nor
of type EV_REL is replayed verbatim, active engine included; an EV_REL
event is replayed only when no hold is in progress and the engine is
inactive, and is swallowed whenever the engine is active and also when a
hold is in progress with the engine inactive, where it triggers drag
activation first. -/
theorem C2_replay_amended (hk : ℕ) (hd : ℝ) (S : DaemonState) (now : ℝ)
    (e : InputEvent)
    (hnothk : ¬(e.etype = EV_KEY ∧ e.code = hk)) :
    (e.etype ≠ EV_REL → (mouseReaderStep hk hd S now e).2 = [e, SYN_REPORT]) ∧
    (e.etype = EV_REL → S.is_holding = false → S.logic.is_active = false →
      (mouseReaderStep hk hd S now e).2 = [e, SYN_REPORT]) ∧
    (e.etype = EV_REL → S.logic.is_active = true →
      (mouseReaderStep hk hd S now e).2 = []) ∧
    (e.etype = EV_REL → S.is_holding = true → S.logic.is_active = false →
      (mouseReaderStep hk hd S now e).2 = []) := by
  refine ⟨?_, ?_, ?_, ?_⟩
  · intro hrel
    simp [mouseReaderStep, hnothk, hrel]
  · intro hrel hhold hact
    simp [mouseReaderStep, hnothk, hrel, hhold, hact, EV_REL, EV_KEY]
  · intro hrel hact
    simp [mouseReaderStep, hnothk, hrel, hact, EV_REL, EV_KEY]
  · intro hrel hhold hact
    have hact2 : S.logic.state.active = false := hact
    simp [mouseReaderStep, hnothk, hrel, hhold, hact2, EV_REL, EV_KEY,
          SmoothScrollLogic.is_active, SmoothScrollLogic.activate]

/-- C2 witness: a non-hotkey button press is replayed verbatim even while
the engine is active. -/
theorem C2_replay_amended_witness :
    (mouseReaderStep BTN_MIDDLE (1/5) activeDaemon 1 sideButtonEvent).2 =
      [sideButtonEvent, SYN_REPORT] :=
  (C2_replay_amended BTN_MIDDLE (1/5) activeDaemon 1 sideButtonEvent
    (by decide)).1 (by decide)

/-- An event that is neither EV_REL nor the hotkey button is replayed and
leaves a holding, engine-inactive state untouched while the hold deadline
has not passed. -/
theorem mouseReaderStep_neutral (hk : ℕ) (hd t0 now : ℝ) (Lg : SmoothScrollLogic)
    (e : InputEvent)
    (hact : Lg.is_active = false)
    (hrel : e.etype ≠ EV_REL)
    (hnothk : ¬(e.etype = EV_KEY ∧ e.code = hk))
    (htime : ¬ hd < now - t0) :
    mouseReaderStep hk hd (DaemonState.mk true t0 Lg) now e =
      (DaemonState.mk true t0 Lg, [e, SYN_REPORT]) := by
  simp [mouseReaderStep, hnothk, hrel, hact, htime]

/-- Running the reader over a list of such neutral events replays each of
them and preserves the state. -/
theorem runMouseReader_neutral_list (hk : ℕ) (hd t0 trel : ℝ)
    (Lg : SmoothScrollLogic)
    (hact : Lg.is_active = false) (hdur : trel - t0 < hd) :
    ∀ middle : List (ℝ × InputEvent),
      (∀ te ∈ middle, t0 ≤ te.1 ∧ te.1 ≤ trel ∧ te.2.etype ≠ EV_REL ∧
        ¬(te.2.etype = EV_KEY ∧ te.2.code = hk)) →
      runMouseReader hk hd (DaemonState.mk true t0 Lg) middle =
        (DaemonState.mk true t0 Lg,
         (middle.map (fun te => [te.2, SYN_REPORT])).flatten) := by
  intro middle
  induction middle with
  | nil =>
    intro _
    simp [runMouseReader]
  | cons te rest ih =>
    intro hmid
    obtain ⟨ht0, htr, hrel, hnothk⟩ := hmid te (List.mem_cons_self te rest)
    have htime : ¬ hd < te.1 - t0 := by
      push_neg
      linarith
    have hstep := mouseReaderStep_neutral hk hd t0 te.1 Lg te.2 hact hrel hnothk htime
    have hrest := ih (fun te2 h2 => hmid te2 (List.mem_cons_of_mem te h2))
    simp only [runMouseReader]
    rw [hstep]
    simp [hrest]

/-- Splitting a reader run at a list append point. -/
theorem runMouseReader_append (hk : ℕ) (hd : ℝ) (S : DaemonState)
    (l1 l2 : List (ℝ × InputEvent)) :
    runMouseReader hk hd S (l1 ++ l2) =
      ((runMouseReader hk hd (runMouseReader hk hd S l1).1 l2).1,
       (runMouseReader hk hd S l1).2 ++
         (runMouseReader hk hd (runMouseReader hk hd S l1).1 l2).2) := by
  induction l1 generalizing S with
  | nil =>
    simp [runMouseReader]
  | cons te rest ih =>
    simp only [List.cons_append, runMouseReader, List.append_eq]
    rw [ih]
    simp [List.append_assoc]

/-- C8 amended: if the hotkey button is pressed and released within the
hold duration with no EV_REL event (motion or wheel) in between, the
engine never activates, each intervening event is replayed, exactly one
synthesized press and release pair of the hotkey button is emitted on the
release, and an inactive engine makes the scroll thread emit nothing. -/
theorem C8_tap_amended (hk : ℕ) (hd t0 trel : ℝ) (S0 : DaemonState)
    (middle : List (ℝ × InputEvent))
    (hact : S0.logic.is_active = false)
    (hdur : trel - t0 < hd)
    (hmid : ∀ te ∈ middle, t0 ≤ te.1 ∧ te.1 ≤ trel ∧ te.2.etype ≠ EV_REL ∧
      ¬(te.2.etype = EV_KEY ∧ te.2.code = hk)) :
    (∀ m1 m2, middle = m1 ++ m2 →
      (runMouseReader hk hd S0
        ((t0, InputEvent.mk EV_KEY hk 1) :: m1)).1.logic.is_active = false) ∧
    runMouseReader hk hd S0
        ((t0, InputEvent.mk EV_KEY hk 1) ::
          (middle ++ [(trel, InputEvent.mk EV_KEY hk 0)])) =
      (DaemonState.mk false t0 S0.logic,
       (middle.map (fun te => [te.2, SYN_REPORT])).flatten ++
         [InputEvent.mk EV_KEY hk 1, SYN_REPORT,
          InputEvent.mk EV_KEY hk 0, SYN_REPORT]) ∧
    processScrollThreadStep S0.logic = (S0.logic, []) := by
  obtain ⟨hold0, bpt0, Lg0⟩ := S0
  dsimp only at hact hmid ⊢
  have hpress : mouseReaderStep hk hd (DaemonState.mk hold0 bpt0 Lg0) t0
      (InputEvent.mk EV_KEY hk 1) = (DaemonState.mk true t0 Lg0, []) := by
    simp [mouseReaderStep]
  have hrelease : mouseReaderStep hk hd (DaemonState.mk true t0 Lg0) trel
      (InputEvent.mk EV_KEY hk 0) =
      (DaemonState.mk false t0 Lg0,
       [InputEvent.mk EV_KEY hk 1, SYN_REPORT,
        InputEvent.mk EV_KEY hk 0, SYN_REPORT]) := by
    simp [mouseReaderStep, hact, hdur]
  refine ⟨?_, ?_, ?_⟩
  · intro m1 m2 hsplit
    have hm1 : ∀ te ∈ m1, t0 ≤ te.1 ∧ te.1 ≤ trel ∧ te.2.etype ≠ EV_REL ∧
        ¬(te.2.etype = EV_KEY ∧ te.2.code = hk) := by
      intro te h
      exact hmid te (by rw [hsplit]; exact List.mem_append_left _ h)
    have hm1run := runMouseReader_neutral_list hk hd t0 trel Lg0 hact hdur m1 hm1
    simp only [runMouseReader]
    rw [hpress]
    simp [hm1run, hact]
  · have hmidrun := runMouseReader_neutral_list hk hd t0 trel Lg0 hact hdur middle hmid
    simp only [runMouseReader]
    rw [hpress]
    rw [runMouseReader_append]
    rw [hmidrun]
    simp only [runMouseReader]
    rw [hrelease]
    simp
  · simp [processScrollThreadStep, SmoothScrollLogic.is_active] at hact ⊢
    simp [processScrollThreadStep, hact]

/-- C8 witness: a plain press and release of the middle button within the
hold window, with nothing in between, emits exactly one synthesized click
pair, leaves the engine inactive, and the scroll thread emits nothing. -/
theorem C8_tap_amended_witness :
    runMouseReader BTN_MIDDLE (1/5) idleDaemon
        [(0, InputEvent.mk EV_KEY BTN_MIDDLE 1),
         ((1/10 : ℝ), InputEvent.mk EV_KEY BTN_MIDDLE 0)] =
      (DaemonState.mk false 0 idleDaemon.logic,
       [InputEvent.mk EV_KEY BTN_MIDDLE 1, SYN_REPORT,
        InputEvent.mk EV_KEY BTN_MIDDLE 0, SYN_REPORT]) ∧
    processScrollThreadStep idleDaemon.logic = (idleDaemon.logic, []) := by
  have h := C8_tap_amended BTN_MIDDLE (1/5) 0 (1/10) idleDaemon []
    rfl (by norm_num) (by simp)
  refine ⟨?_, h.2.2⟩
  have h2 := h.2.1
  simpa using h2

/-- C8 counterexample: press at time 0, a physical wheel event (which is
not REL_X/REL_Y motion) at 0.05, release at 0.1 with hold duration 0.2:
the engine activates on the wheel event and nothing at all is written to
the virtual device — no click pair is synthesized. -/
theorem C8_tap_counterexample :
    ((1/10 : ℝ) - 0 < 1/5) ∧
    (runMouseReader BTN_MIDDLE (1/5) idleDaemon
      (tapWheelTrace.take 2)).1.logic.is_active = true ∧
    (runMouseReader BTN_MIDDLE (1/5) idleDaemon tapWheelTrace).2 = [] := by
  refine ⟨by norm_num, rfl, rfl⟩

end SmoothScroll
